import Mathlib

/-!
Verification of the download-worker core of the `telegram-vreddit-bot`
repository (files `src/cancer/command/download.py` and `src/cancer/mqtt.py`)
against its natural-language specification.

Modelling conventions:

* A filesystem path is represented by its `/`-separated component list
  (`Path := List String`); `os.path.join base name` becomes `base ++ [name]`.
  `os.path.splitext` only ever inspects the final component (the file name),
  so it is embedded as a component-level operation `splitextName` that follows
  the `posixpath` algorithm on a slash-free name, lifted to `Path` by
  `splitextPath`.
* The pipeline's observable effects are threaded through an explicit state
  `St`: the set of filesystem entries created (`fs`), the trace of calls made
  to the external collaborators (`calls`), and a counter used to generate the
  fresh names which `uuid.uuid4()` and `TemporaryDirectory` produce (their
  only property the program relies on is freshness, which the counter
  provides; `os.mkdir`'s `FileExistsError` on a colliding fresh name is
  consequently unreachable and not modelled).
* External collaborators (yt-dlp, ffmpeg, Telegram upload) are parameters in
  `Env`: `fetch` gives yt-dlp's return code and the file names it wrote into
  the target directory, `convertExit` gives ffmpeg's exit status, and
  `uploadFileId` gives the `file_id` Telegram returns for an upload.
  Failures of the Telegram send/upload HTTP calls themselves are outside the
  claims under study and are not modelled.
* Python exceptions are values of `PyError`; a function that can raise
  returns `Except PyError`.
-/

set_option autoImplicit false

namespace Cancer

/-- A path component (one `/`-separated segment of a file path). -/
abbrev Name := String

/-- A filesystem path, as its list of components. -/
abbrev Path := List Name

/-- Python exceptions raised by the embedded code. -/
inductive PyError where
  /-- `ValueError`, as raised by config validation and by `int()`. -/
  | valueError (msg : String)
  /-- `RuntimeError`, as raised by `_convert_cure` on ffmpeg failure. -/
  | runtimeError (msg : String)
  deriving DecidableEq, Repr

/-- The `Subscriber.Result` enumeration of the subscriber contract. -/
inductive Result where
  | Ack
  | Nack
  | Requeue
  deriving DecidableEq, Repr

/-- One invocation of an external collaborator, recorded in the trace. -/
inductive Call where
  /-- `ytdl.download([url])` targeting directory `dest`. -/
  | fetch (url : String) (dest : Path)
  /-- `ffmpeg -i input output` via `_convert_cure`. -/
  | convert (input output : Path)
  /-- `telegram.upload_video(chat, path)`. -/
  | uploadVideo (chat : String) (path : Path)
  /-- `telegram.send_video_group(chat_id, reply_to_message_id, videos)`. -/
  | sendVideoGroup (chatId : Int) (replyToMessageId : Int) (videos : List String)
  deriving DecidableEq, Repr

/-- The observable state threaded through the pipeline: filesystem entries,
the trace of external calls, and the fresh-name counter. -/
structure St where
  fs : List Path
  calls : List Call
  ctr : Nat
  deriving DecidableEq, Repr

/-- The external collaborators of `download.py`. -/
structure Env where
  /-- yt-dlp on a URL: the return code of `ytdl.download` and the names of
  the files it wrote into the output directory (what `os.listdir` finds). -/
  fetch : String → Int × List Name
  /-- Exit status of the ffmpeg process for the given input/output paths. -/
  convertExit : Path → Path → Int
  /-- The `file_id` of the video in the message Telegram returns for an
  upload of `path` to chat `chat`. -/
  uploadFileId : String → Path → String

/-- The `DownloadMessage` payload: destination chat, triggering message and
the ordered URL list. -/
structure DownloadMessage where
  chatId : Int
  messageId : Int
  urls : List String
  deriving DecidableEq, Repr

/-! ### `os.path.splitext` on a single file-name component -/

/-- Split `cs` at the last occurrence of `c`: returns `some (pre, post)` with
`cs = pre ++ c :: post` and `c ∉ post`, or `none` when `c ∉ cs`. -/
def splitAtLast (c : Char) : List Char → Option (List Char × List Char)
  | [] => none
  | x :: xs =>
    match splitAtLast c xs with
    | some (pre, post) => some (x :: pre, post)
    | none => if x = c then some ([], xs) else none

/-- `posixpath.splitext` restricted to a slash-free final component: split at
the last dot, unless every character before that dot is itself a dot (the
leading-dots rule that keeps `".bashrc"` extensionless). -/
def splitextName (s : String) : String × String :=
  match splitAtLast '.' s.toList with
  | some (pre, post) =>
    if pre.any (fun c => c ≠ '.') then
      (String.mk pre, String.mk ('.' :: post))
    else
      (s, "")
  | none => (s, "")

/-- `os.path.splitext` on a component path: split the extension off the final
component, leaving the directory part untouched. -/
def splitextPath : Path → Path × String
  | [] => ([], "")
  | [n] => ([(splitextName n).1], (splitextName n).2)
  | x :: y :: xs =>
    ((x :: (splitextPath (y :: xs)).1), (splitextPath (y :: xs)).2)

/-- Append `suffix` to the final component of a path (the component embedding
of Python string concatenation `base + suffix` on a joined path). -/
def appendToLast (suffix : String) : Path → Path
  | [] => [suffix]
  | [n] => [n ++ suffix]
  | x :: y :: xs => x :: appendToLast suffix (y :: xs)

/-! ### State primitives -/

/-- Generate a fresh name (`uuid.uuid4()` / the random `TemporaryDirectory`
name), advancing the counter. -/
def freshName (prefixStr : String) (s : St) : String × St :=
  (prefixStr ++ toString s.ctr, { s with ctr := s.ctr + 1 })

/-- Record a newly created filesystem entry. -/
def addPath (p : Path) (s : St) : St :=
  { s with fs := s.fs ++ [p] }

/-- Record several newly created filesystem entries. -/
def addPaths (ps : List Path) (s : St) : St :=
  { s with fs := s.fs ++ ps }

/-- Record a collaborator invocation in the trace. -/
def emit (c : Call) (s : St) : St :=
  { s with calls := s.calls ++ [c] }

/-- `shutil.rmtree`-style recursive removal performed by
`TemporaryDirectory.__exit__`: every entry at or below `folder` disappears. -/
def cleanupTree (folder : Path) (s : St) : St :=
  { s with fs := s.fs.filter (fun p => ¬ folder.isPrefixOf p) }

/-! ### `download.py` pipeline -/

/-- `_download_videos(base_folder, url)`: create a fresh per-URL directory,
run yt-dlp into it, and return the joined paths of the files it produced —
or `[]` when yt-dlp signals a non-zero return code. -/
def downloadVideos (env : Env) (baseFolder : Path) (url : String) (s : St) :
    List Path × St :=
  let (cureId, s0) := freshName "uuid" s
  let cureDir := baseFolder ++ [cureId]
  let s1 := addPath cureDir s0
  let returnCode := (env.fetch url).1
  let cureNames := (env.fetch url).2
  let cureFiles := cureNames.map (fun n => cureDir ++ [n])
  let s2 := addPaths cureFiles (emit (Call.fetch url cureDir) s1)
  if returnCode ≠ 0 then ([], s2) else (cureFiles, s2)

/-- The flattening list comprehension of `_handle_payload`:
`[file for url in payload.urls for file in _download_videos(folder, url)]`. -/
def downloadAll (env : Env) (folder : Path) :
    List String → St → List Path × St
  | [], s => ([], s)
  | u :: rest, s =>
    let (fs1, s1) := downloadVideos env folder u s
    let (fs2, s2) := downloadAll env folder rest s1
    (fs1 ++ fs2, s2)

/-- `_convert_cure(input_path, output_path)`: run ffmpeg; raise
`RuntimeError` when its exit status is non-zero. -/
def convertCure (env : Env) (inputPath outputPath : Path) (s : St) :
    Except PyError Unit × St :=
  let s1 := emit (Call.convert inputPath outputPath) s
  if env.convertExit inputPath outputPath ≠ 0 then
    (Except.error (PyError.runtimeError "Could not convert file!"), s1)
  else
    (Except.ok (), addPath outputPath s1)

/-- `_ensure_compatibility(original_path)`: keep `.mp4` files unchanged,
otherwise convert to the sibling path with extension `.mp4`. -/
def ensureCompatibility (env : Env) (originalPath : Path) (s : St) :
    Except PyError Path × St :=
  let base := (splitextPath originalPath).1
  let ext := (splitextPath originalPath).2
  if ext = ".mp4" then
    (Except.ok originalPath, s)
  else
    let convertedPath := appendToLast ".mp4" base
    match convertCure env originalPath convertedPath s with
    | (Except.error e, s1) => (Except.error e, s1)
    | (Except.ok _, s1) => (Except.ok convertedPath, s1)

/-- `_upload_video(video_file)`: normalize the file, upload it to the staging
chat and return the resulting `file_id`. -/
def uploadVideo (env : Env) (uploadChat : String) (videoFile : Path) (s : St) :
    Except PyError String × St :=
  match ensureCompatibility env videoFile s with
  | (Except.error e, s1) => (Except.error e, s1)
  | (Except.ok curePath, s1) =>
    let s2 := emit (Call.uploadVideo uploadChat curePath) s1
    (Except.ok (env.uploadFileId uploadChat curePath), s2)

/-- The upload list comprehension of `_handle_payload`:
`[_upload_video(file) for file in files]`. -/
def uploadAll (env : Env) (uploadChat : String) :
    List Path → St → Except PyError (List String) × St
  | [], s => (Except.ok [], s)
  | f :: rest, s =>
    match uploadVideo env uploadChat f s with
    | (Except.error e, s1) => (Except.error e, s1)
    | (Except.ok vid, s1) =>
      match uploadAll env uploadChat rest s1 with
      | (Except.error e, s2) => (Except.error e, s2)
      | (Except.ok vids, s2) => (Except.ok (vid :: vids), s2)

/-- `_handle_payload(payload)`: inside a fresh `TemporaryDirectory` under the
storage root, fetch every URL, upload every file, send the grouped reply and
return `Ack`.  The `with` block guarantees the recursive removal of the
workspace on both the normal and the raising path. -/
def handlePayload (env : Env) (storageDir : Path) (uploadChat : String)
    (payload : DownloadMessage) (s : St) : Except PyError Result × St :=
  let (tmpName, s0) := freshName "tmp" s
  let folder := storageDir ++ [tmpName]
  let s1 := addPath folder s0
  let (files, s2) := downloadAll env folder payload.urls s1
  match uploadAll env uploadChat files s2 with
  | (Except.error e, s3) => (Except.error e, cleanupTree folder s3)
  | (Except.ok videoIds, s3) =>
    let s4 := emit
      (Call.sendVideoGroup payload.chatId payload.messageId videoIds) s3
    (Except.ok Result.Ack, cleanupTree folder s4)

/-- `os.getenv(key, default)`. -/
def getenvD (environ : String → Option String) (key dflt : String) : String :=
  (environ key).getD dflt

/-- `_UPLOAD_CHAT = os.getenv("UPLOAD_CHAT_ID", "1259947317")`. -/
def uploadChatEnv (environ : String → Option String) : String :=
  getenvD environ "UPLOAD_CHAT_ID" "1259947317"

/-- `_STORAGE_DIR = os.getenv("STORAGE_DIR", "downloads")`, as a path. -/
def storageDirEnv (environ : String → Option String) : Path :=
  [getenvD environ "STORAGE_DIR" "downloads"]

/-! ### Closed forms of one pipeline run

The following functions compute, for given collaborators and a given starting
counter, the exact files, created entries and trace produced by a run.  They
exist to give the run-characterization lemmas something to state. -/

/-- The per-URL directory `_download_videos` creates when the counter is
`ctr`. -/
def cureDirAt (folder : Path) (ctr : Nat) : Path :=
  folder ++ ["uuid" ++ toString ctr]

/-- The file list `_download_videos` returns for `url` at counter `ctr`. -/
def urlFiles (env : Env) (folder : Path) (url : String) (ctr : Nat) :
    List Path :=
  if (env.fetch url).1 ≠ 0 then []
  else (env.fetch url).2.map (fun n => cureDirAt folder ctr ++ [n])

/-- The filesystem entries `_download_videos` creates for `url` at counter
`ctr`: the per-URL directory and whatever yt-dlp wrote into it. -/
def urlCreated (env : Env) (folder : Path) (url : String) (ctr : Nat) :
    List Path :=
  cureDirAt folder ctr :: (env.fetch url).2.map (fun n => cureDirAt folder ctr ++ [n])

/-- Per-URL file lists of a whole job, in input URL order. -/
def jobFileLists (env : Env) (folder : Path) :
    List String → Nat → List (List Path)
  | [], _ => []
  | u :: rest, ctr => urlFiles env folder u ctr :: jobFileLists env folder rest (ctr + 1)

/-- All filesystem entries the fetch phase creates. -/
def dlCreated (env : Env) (folder : Path) : List String → Nat → List Path
  | [], _ => []
  | u :: rest, ctr => urlCreated env folder u ctr ++ dlCreated env folder rest (ctr + 1)

/-- The fetch calls of a whole job, in input URL order. -/
def fetchCalls (folder : Path) : List String → Nat → List Call
  | [], _ => []
  | u :: rest, ctr => Call.fetch u (cureDirAt folder ctr) :: fetchCalls folder rest (ctr + 1)

/-- Whether `_ensure_compatibility` must convert this file (extension is not
`.mp4`). -/
def needsConv (f : Path) : Bool :=
  (splitextPath f).2 ≠ ".mp4"

/-- The sibling output path `_ensure_compatibility` hands to ffmpeg. -/
def convPath (f : Path) : Path :=
  appendToLast ".mp4" (splitextPath f).1

/-- The path that actually gets uploaded for a fetched file. -/
def compatPath (f : Path) : Path :=
  if needsConv f then convPath f else f

/-- This file passes normalization: it needs no conversion, or its
conversion exits with status 0. -/
def convOk (env : Env) (f : Path) : Bool :=
  !needsConv f || env.convertExit f (convPath f) = 0

/-- The `file_id` collected for a fetched file. -/
def handleOf (env : Env) (uploadChat : String) (f : Path) : String :=
  env.uploadFileId uploadChat (compatPath f)

/-- The collaborator calls `_upload_video` makes for one fetched file. -/
def fileCalls (uploadChat : String) (f : Path) : List Call :=
  (if needsConv f then [Call.convert f (convPath f)] else [])
    ++ [Call.uploadVideo uploadChat (compatPath f)]

/-- The collaborator calls of the whole upload phase. -/
def uploadCalls (uploadChat : String) (files : List Path) : List Call :=
  (files.map (fileCalls uploadChat)).flatten

/-- The filesystem entries the upload phase creates (converted siblings). -/
def upCreated (files : List Path) : List Path :=
  (files.filter needsConv).map convPath

/-- The workspace directory `TemporaryDirectory` yields for a run starting in
state `s`. -/
def jobFolder (storageDir : Path) (s : St) : Path :=
  storageDir ++ ["tmp" ++ toString s.ctr]

/-- The files the fetch phase of a run starting in state `s` collects. -/
def jobFiles (env : Env) (storageDir : Path) (payload : DownloadMessage)
    (s : St) : List Path :=
  (jobFileLists env (jobFolder storageDir s) payload.urls (s.ctr + 1)).flatten

/-! ### `cancer/mqtt.py` -/

/-- Python truthiness of `os.getenv`'s result: `not x` holds for `None` and
for the empty string. -/
def pyFalsy : Option String → Bool
  | none => true
  | some s => s.isEmpty

/-- Whitespace accepted around a Python `int()` literal. -/
def pyIsSpace (c : Char) : Bool :=
  c = ' ' || c = '\t' || c = '\n' || c = '\r' || c = '\x0b' || c = '\x0c'

/-- The tail of a Python decimal literal: digits, with single underscores
allowed only between digits. -/
def pyDigitsTail : List Char → Bool
  | [] => true
  | ['_'] => false
  | '_' :: c :: cs => c.isDigit && pyDigitsTail cs
  | c :: cs => c.isDigit && pyDigitsTail cs

/-- A non-empty unsigned Python decimal literal. -/
def pyUnsigned : List Char → Bool
  | [] => false
  | c :: cs => c.isDigit && pyDigitsTail cs

/-- Whether `int(s)` succeeds for a `str` argument: optional surrounding
whitespace, optional sign, then a decimal literal.  (Non-ASCII digits are not
modelled.) -/
def pyIntOk (s : String) : Bool :=
  let core := ((s.toList.dropWhile pyIsSpace).reverse.dropWhile pyIsSpace).reverse
  match core with
  | '+' :: rest => pyUnsigned rest
  | '-' :: rest => pyUnsigned rest
  | rest => pyUnsigned rest

/-- `check()` from `cancer/mqtt.py`: validate the five environment-sourced
connection values, raising `ValueError` on the first violation.  `_TRANSPORT`
defaults to `"tcp"`, so it only fails the truthiness test when
`MQTT_TRANSPORT` is set to the empty string; `int(_PORT)` raises
`ValueError` on a non-numeric port. -/
def mqttCheck (environ : String → Option String) : Except PyError Unit :=
  let host := environ "MQTT_HOST"
  let port := environ "MQTT_PORT"
  let user := environ "MQTT_USER"
  let password := environ "MQTT_PASSWORD"
  let transport := (environ "MQTT_TRANSPORT").getD "tcp"
  if pyFalsy host then Except.error (PyError.valueError "MQTT_HOST missing")
  else if pyFalsy port then Except.error (PyError.valueError "MQTT_PORT missing")
  else if !pyIntOk (port.getD "") then
    Except.error (PyError.valueError "invalid literal for int() with base 10")
  else if pyFalsy user then Except.error (PyError.valueError "MQTT_USER missing")
  else if pyFalsy password then Except.error (PyError.valueError "MQTT_PASSWORD missing")
  else if transport.isEmpty then Except.error (PyError.valueError "MQTT_TRANSPORT missing")
  else Except.ok ()

/-- The connection keyword arguments `subscribe`/`publish_messages` pass to
paho (`hostname`, `port`, `auth`, `transport`), read from the same
environment values `check()` validates. -/
structure ConnectionArgs where
  hostname : Option String
  port : Option String
  username : Option String
  password : Option String
  transport : String
  deriving DecidableEq, Repr

/-- The connection arguments used by `subscribe` in `cancer/mqtt.py`. -/
def subscribeArgs (environ : String → Option String) : ConnectionArgs :=
  { hostname := environ "MQTT_HOST"
    port := environ "MQTT_PORT"
    username := environ "MQTT_USER"
    password := environ "MQTT_PASSWORD"
    transport := (environ "MQTT_TRANSPORT").getD "tcp" }

/-- A raw MQTT message payload (bytes). -/
abbrev Payload := List Nat

/-- The `on_message` callback that `subscribe` in `cancer/mqtt.py` registers
with paho: `handle(message_type.deserialize(message.payload))`, with no
exception handling of any kind — a deserialization failure or a handler
fault escapes the callback, and no acknowledgement outcome exists in this
contract (the handler type is `Callable[[T], None]`). -/
def onMessage (deserialize : Payload → Except PyError DownloadMessage)
    (handle : DownloadMessage → Except PyError Unit) (payload : Payload) :
    Except PyError Unit :=
  match deserialize payload with
  | Except.error e => Except.error e
  | Except.ok m => handle m

/-! ### Broker selection in `run()` -/

/-- Modelled from the spec: the queue-broker configuration
(`RabbitConfig`, defined in `cancer/adapter/rabbit.py`, which is outside the
sources under study) — host, port, credentials and a vhost-equivalent. -/
structure RabbitConfig where
  host : String
  port : Nat
  user : String
  password : String
  virtualHost : String
  deriving DecidableEq, Repr

/-- Modelled from the spec: the pub/sub-broker configuration
(`MqttConfig`, defined in `cancer/adapter/mqtt.py`, which is outside the
sources under study) — host, port, user, password and transport. -/
structure MqttConfig where
  host : String
  port : Nat
  user : String
  password : String
  transport : String
  deriving DecidableEq, Repr

/-- The subscriber variant `run()` ends up with. -/
inductive SelectedSubscriber where
  | rabbit (config : RabbitConfig)
  | mqtt (config : MqttConfig)
  deriving DecidableEq, Repr

/-- The broker-selection fallback of `run()` in `download.py`:

`try: subscriber = RabbitSubscriber(RabbitConfig.from_env())`
`except ValueError: subscriber = MqttSubscriber(MqttConfig.from_env())`

The outcomes of the two `from_env` config constructors are parameters
(their bodies live outside the sources under study; per the spec they
validate completeness and raise a configuration error — surfaced as
`ValueError`, the only exception the `except` clause catches).  The MQTT
constructor is a thunk because the source only evaluates it after the
Rabbit constructor has raised. -/
def selectSubscriber (rabbitFromEnv : Except PyError RabbitConfig)
    (mqttFromEnv : Unit → Except PyError MqttConfig) :
    Except PyError SelectedSubscriber :=
  match rabbitFromEnv with
  | Except.ok config => Except.ok (SelectedSubscriber.rabbit config)
  | Except.error (PyError.valueError _) =>
    match mqttFromEnv () with
    | Except.ok config => Except.ok (SelectedSubscriber.mqtt config)
    | Except.error e => Except.error e
  | Except.error e => Except.error e

/-! ### Concrete instances (used by the witness theorems) -/

/-- A collaborator environment in which every fetch fails. -/
def envAllFail : Env where
  fetch _ := (1, [])
  convertExit _ _ := 0
  uploadFileId _ _ := "file-id"

/-- A collaborator environment in which fetching URL "A" signals a non-zero
outcome and fetching any other URL succeeds with two files, one of which
needs conversion; conversions and uploads succeed. -/
def envAB : Env where
  fetch u := if u = "A" then (1, []) else (0, ["out1.webm", "out2.mp4"])
  convertExit _ _ := 0
  uploadFileId _ p := String.intercalate "/" p

/-- A collaborator environment in which every fetch yields one non-`.mp4`
file and every conversion fails. -/
def envConvFail : Env where
  fetch _ := (0, ["clip.webm"])
  convertExit _ _ := 1
  uploadFileId _ _ := "file-id"

/-- An initial state with an empty filesystem, no calls and counter 0. -/
def st0 : St := { fs := [], calls := [], ctr := 0 }

/-- A two-URL job. -/
def payloadAB : DownloadMessage := { chatId := 55, messageId := 7, urls := ["A", "B"] }

/-- A one-URL job. -/
def payloadOne : DownloadMessage := { chatId := 55, messageId := 7, urls := ["u"] }

/-- A process environment with a complete MQTT configuration and no
`UPLOAD_CHAT_ID` override. -/
def environFull : String → Option String := fun k =>
  if k = "MQTT_HOST" then some "broker.example"
  else if k = "MQTT_PORT" then some "1883"
  else if k = "MQTT_USER" then some "user"
  else if k = "MQTT_PASSWORD" then some "secret"
  else none

/-- A concrete queue-broker configuration. -/
def rabbitCfg : RabbitConfig :=
  { host := "rabbit.example", port := 5672, user := "u", password := "p",
    virtualHost := "vhost" }

/-- A concrete pub/sub-broker configuration. -/
def mqttCfg : MqttConfig :=
  { host := "broker.example", port := 1883, user := "u", password := "p",
    transport := "tcp" }

/-! ## Path lemmas -/

theorem splitextPath_append_single (xs : Path) (n : Name) :
    splitextPath (xs ++ [n]) = (xs ++ [(splitextName n).1], (splitextName n).2) := by
  induction xs with
  | nil => simp [splitextPath]
  | cons x xs ih =>
    cases xs with
    | nil => simp [splitextPath, splitextName]
    | cons y ys =>
      simp only [List.cons_append] at ih ⊢
      simp only [splitextPath, ih]

theorem appendToLast_append_single (suffix : String) (xs : Path) (n : Name) :
    appendToLast suffix (xs ++ [n]) = xs ++ [n ++ suffix] := by
  induction xs with
  | nil => simp [appendToLast]
  | cons x xs ih =>
    cases xs with
    | nil => simp [appendToLast]
    | cons y ys => simpa [appendToLast] using ih

theorem convPath_append_single (xs : Path) (n : Name) :
    convPath (xs ++ [n]) = xs ++ [(splitextName n).1 ++ ".mp4"] := by
  simp [convPath, splitextPath_append_single, appendToLast_append_single]

theorem needsConv_append_single (xs : Path) (n : Name) :
    needsConv (xs ++ [n]) = ((splitextName n).2 ≠ ".mp4" : Bool) := by
  simp [needsConv, splitextPath_append_single]

/-- A converted sibling stays inside any directory the original file is
strictly inside of. -/
theorem convPath_under (folder : Path) (d n : Name) :
    folder <+: convPath (folder ++ [d, n]) := by
  have h : folder ++ [d, n] = (folder ++ [d]) ++ [n] := by simp
  rw [h, convPath_append_single, List.append_assoc]
  exact List.prefix_append folder _

/-! ## Run characterization: fetch phase -/

theorem downloadVideos_run (env : Env) (folder : Path) (url : String) (s : St) :
    downloadVideos env folder url s =
      (urlFiles env folder url s.ctr,
       { fs := s.fs ++ urlCreated env folder url s.ctr,
         calls := s.calls ++ [Call.fetch url (cureDirAt folder s.ctr)],
         ctr := s.ctr + 1 }) := by
  by_cases h : (env.fetch url).1 = 0 <;>
    simp [downloadVideos, freshName, addPath, addPaths, emit, urlFiles,
      urlCreated, cureDirAt, h]

theorem downloadAll_run (env : Env) (folder : Path) (urls : List String) (s : St) :
    downloadAll env folder urls s =
      ((jobFileLists env folder urls s.ctr).flatten,
       { fs := s.fs ++ dlCreated env folder urls s.ctr,
         calls := s.calls ++ fetchCalls folder urls s.ctr,
         ctr := s.ctr + urls.length }) := by
  induction urls generalizing s with
  | nil => simp [downloadAll, jobFileLists, dlCreated, fetchCalls]
  | cons u rest ih =>
    simp only [downloadAll, downloadVideos_run, ih, jobFileLists, dlCreated,
      fetchCalls, List.flatten_cons]
    simp [List.append_assoc, List.length_cons, Nat.add_assoc, Nat.add_comm,
      Nat.add_left_comm]

/-! ## Run characterization: upload phase -/

theorem upCreated_cons (f : Path) (rest : List Path) :
    upCreated (f :: rest) =
      (if needsConv f then [convPath f] else []) ++ upCreated rest := by
  by_cases h : needsConv f <;> simp [upCreated, List.filter_cons, h]

theorem uploadCalls_cons (chat : String) (f : Path) (rest : List Path) :
    uploadCalls chat (f :: rest) = fileCalls chat f ++ uploadCalls chat rest := by
  simp [uploadCalls]

theorem uploadVideo_run_ok (env : Env) (chat : String) (f : Path) (s : St)
    (h : convOk env f = true) :
    uploadVideo env chat f s =
      (Except.ok (handleOf env chat f),
       { fs := s.fs ++ (if needsConv f then [convPath f] else []),
         calls := s.calls ++ fileCalls chat f,
         ctr := s.ctr }) := by
  by_cases hc : (splitextPath f).2 = ".mp4"
  · simp [uploadVideo, ensureCompatibility, emit, handleOf, compatPath,
      fileCalls, needsConv, hc]
  · have hneeds : needsConv f = true := by simp [needsConv, hc]
    have hexit : env.convertExit f (convPath f) = 0 := by
      simpa [convOk, hneeds] using h
    simp only [convPath] at hexit
    simp [uploadVideo, ensureCompatibility, convertCure, emit, addPath,
      handleOf, compatPath, fileCalls, needsConv, hc, hexit, convPath]

theorem uploadVideo_run_err (env : Env) (chat : String) (f : Path) (s : St)
    (h : convOk env f = false) :
    uploadVideo env chat f s =
      (Except.error (PyError.runtimeError "Could not convert file!"),
       { fs := s.fs,
         calls := s.calls ++ [Call.convert f (convPath f)],
         ctr := s.ctr }) := by
  have hneeds : needsConv f = true := by
    by_contra hn
    have hn' : needsConv f = false := by simpa using hn
    simp [convOk, hn'] at h
  have hc : ¬ (splitextPath f).2 = ".mp4" := by
    simpa [needsConv] using hneeds
  have hexit : env.convertExit f (convPath f) ≠ 0 := by
    simpa [convOk, hneeds] using h
  simp only [convPath] at hexit
  simp [uploadVideo, ensureCompatibility, convertCure, emit, hc, hexit, convPath]

theorem uploadAll_run_ok (env : Env) (chat : String) (files : List Path) (s : St)
    (h : ∀ f ∈ files, convOk env f = true) :
    uploadAll env chat files s =
      (Except.ok (files.map (handleOf env chat)),
       { fs := s.fs ++ upCreated files,
         calls := s.calls ++ uploadCalls chat files,
         ctr := s.ctr }) := by
  induction files generalizing s with
  | nil => simp [uploadAll, upCreated, uploadCalls]
  | cons f rest ih =>
    have hf : convOk env f = true := h f (by simp)
    have hrest : ∀ g ∈ rest, convOk env g = true := fun g hg => h g (by simp [hg])
    simp only [uploadAll, uploadVideo_run_ok env chat f s hf, ih _ hrest,
      upCreated_cons, uploadCalls_cons, List.map_cons]
    simp [List.append_assoc]

theorem uploadAll_run_err (env : Env) (chat : String) (good : List Path)
    (bad : Path) (rest : List Path) (s : St)
    (hgood : ∀ f ∈ good, convOk env f = true) (hbad : convOk env bad = false) :
    uploadAll env chat (good ++ bad :: rest) s =
      (Except.error (PyError.runtimeError "Could not convert file!"),
       { fs := s.fs ++ upCreated good,
         calls := s.calls ++ uploadCalls chat good ++ [Call.convert bad (convPath bad)],
         ctr := s.ctr }) := by
  induction good generalizing s with
  | nil =>
    simp [uploadAll, uploadVideo_run_err env chat bad s hbad, upCreated,
      uploadCalls]
  | cons f g ih =>
    have hf : convOk env f = true := hgood f (by simp)
    have hg : ∀ x ∈ g, convOk env x = true := fun x hx => hgood x (by simp [hx])
    simp only [List.cons_append, uploadAll, uploadVideo_run_ok env chat f s hf,
      List.append_eq]
    rw [ih _ hg]
    simp [upCreated_cons, uploadCalls_cons, List.append_assoc]

/-! ## Run characterization: the whole handler -/

theorem handlePayload_run_ok (env : Env) (storageDir : Path) (chat : String)
    (payload : DownloadMessage) (s : St)
    (h : ∀ f ∈ jobFiles env storageDir payload s, convOk env f = true) :
    handlePayload env storageDir chat payload s =
      (Except.ok Result.Ack,
       { fs := (s.fs ++ [jobFolder storageDir s]
            ++ dlCreated env (jobFolder storageDir s) payload.urls (s.ctr + 1)
            ++ upCreated (jobFiles env storageDir payload s)).filter
              (fun p => ¬ (jobFolder storageDir s).isPrefixOf p),
         calls := s.calls
            ++ fetchCalls (jobFolder storageDir s) payload.urls (s.ctr + 1)
            ++ uploadCalls chat (jobFiles env storageDir payload s)
            ++ [Call.sendVideoGroup payload.chatId payload.messageId
                  ((jobFiles env storageDir payload s).map (handleOf env chat))],
         ctr := s.ctr + 1 + payload.urls.length }) := by
  simp only [jobFiles, jobFolder] at h ⊢
  simp only [handlePayload, freshName, addPath]
  rw [downloadAll_run]
  rw [uploadAll_run_ok env chat _ _ (by simpa using h)]
  simp [emit, cleanupTree, List.append_assoc]

theorem handlePayload_run_err (env : Env) (storageDir : Path) (chat : String)
    (payload : DownloadMessage) (s : St) (good : List Path) (bad : Path)
    (rest : List Path)
    (hsplit : jobFiles env storageDir payload s = good ++ bad :: rest)
    (hgood : ∀ f ∈ good, convOk env f = true) (hbad : convOk env bad = false) :
    handlePayload env storageDir chat payload s =
      (Except.error (PyError.runtimeError "Could not convert file!"),
       { fs := (s.fs ++ [jobFolder storageDir s]
            ++ dlCreated env (jobFolder storageDir s) payload.urls (s.ctr + 1)
            ++ upCreated good).filter
              (fun p => ¬ (jobFolder storageDir s).isPrefixOf p),
         calls := s.calls
            ++ fetchCalls (jobFolder storageDir s) payload.urls (s.ctr + 1)
            ++ uploadCalls chat good
            ++ [Call.convert bad (convPath bad)],
         ctr := s.ctr + 1 + payload.urls.length }) := by
  simp only [jobFiles, jobFolder] at hsplit ⊢
  simp only [handlePayload, freshName, addPath]
  rw [downloadAll_run]
  rw [show ((jobFileLists env (storageDir ++ ["tmp" ++ toString s.ctr])
      payload.urls (s.ctr + 1)).flatten) = good ++ bad :: rest from by simpa using hsplit]
  rw [uploadAll_run_err env chat good bad rest _ hgood hbad]
  simp [cleanupTree, List.append_assoc]

/-! ## Everything a run creates lives under the workspace -/

theorem mem_urlCreated_under (env : Env) (folder : Path) (url : String)
    (ctr : Nat) : ∀ p ∈ urlCreated env folder url ctr, folder <+: p := by
  intro p hp
  simp only [urlCreated, cureDirAt, List.mem_cons, List.mem_map] at hp
  rcases hp with rfl | ⟨n, _, rfl⟩
  · exact List.prefix_append folder _
  · rw [List.append_assoc]
    exact List.prefix_append folder _

theorem mem_dlCreated_under (env : Env) (folder : Path) (urls : List String) :
    ∀ ctr, ∀ p ∈ dlCreated env folder urls ctr, folder <+: p := by
  induction urls with
  | nil => intro ctr p hp; simp [dlCreated] at hp
  | cons u rest ih =>
    intro ctr p hp
    simp only [dlCreated, List.mem_append] at hp
    rcases hp with hp | hp
    · exact mem_urlCreated_under env folder u ctr p hp
    · exact ih (ctr + 1) p hp

theorem mem_jobFileLists_shape (env : Env) (folder : Path) (urls : List String) :
    ∀ ctr f, f ∈ (jobFileLists env folder urls ctr).flatten →
      ∃ d n, f = folder ++ [d, n] := by
  induction urls with
  | nil => intro ctr f hf; simp [jobFileLists] at hf
  | cons u rest ih =>
    intro ctr f hf
    simp only [jobFileLists, List.flatten_cons, List.mem_append] at hf
    rcases hf with hf | hf
    · by_cases h : (env.fetch u).1 = 0
      · simp [urlFiles, cureDirAt, h] at hf
        rcases hf with ⟨n, _, hEq⟩
        exact ⟨"uuid" ++ toString ctr, n, by rw [← hEq]⟩
      · simp [urlFiles, h] at hf
    · exact ih (ctr + 1) f hf

theorem mem_upCreated (files : List Path) :
    ∀ p ∈ upCreated files, ∃ f ∈ files, p = convPath f := by
  intro p hp
  simp only [upCreated, List.mem_map, List.mem_filter] at hp
  rcases hp with ⟨f, ⟨hf, _⟩, rfl⟩
  exact ⟨f, hf, rfl⟩

theorem filter_append_under (folder : Path) (base extra : List Path)
    (h : ∀ p ∈ extra, folder <+: p) :
    (base ++ extra).filter (fun p => ¬ folder.isPrefixOf p) =
      base.filter (fun p => ¬ folder.isPrefixOf p) := by
  rw [List.filter_append]
  have hnil : extra.filter (fun p => ¬ folder.isPrefixOf p) = [] := by
    rw [List.filter_eq_nil_iff]
    intro p hp
    have hpre := h p hp
    rw [← List.isPrefixOf_iff_prefix] at hpre
    simp [hpre]
  rw [hnil, List.append_nil]

theorem exists_first_failure {α : Type} (p : α → Bool) (l : List α)
    (h : ¬ ∀ x ∈ l, p x = true) :
    ∃ good bad rest, l = good ++ bad :: rest ∧
      (∀ x ∈ good, p x = true) ∧ p bad = false := by
  induction l with
  | nil => exact absurd (by simp) h
  | cons a l ih =>
    by_cases ha : p a = true
    · have h' : ¬ ∀ x ∈ l, p x = true := by
        intro hl
        refine h ?_
        intro x hx
        rcases List.mem_cons.mp hx with rfl | hx
        · exact ha
        · exact hl x hx
      rcases ih h' with ⟨good, bad, rest, rfl, hg, hb⟩
      refine ⟨a :: good, bad, rest, rfl, ?_, hb⟩
      intro x hx
      rcases List.mem_cons.mp hx with rfl | hx
      · exact ha
      · exact hg x hx
    · exact ⟨[], a, l, rfl, by simp, by simpa using ha⟩

/-! ## Claim theorems -/

/-- Claim C5: on every exit path of `_handle_payload` — the `Ack` return as
well as a raising pipeline step — the per-job workspace directory created
under the storage root, together with every nested per-URL subdirectory and
file inside it, is gone when the handler exits: the final filesystem is the
initial one minus everything at or under the workspace, and in particular no
path under the workspace remains. -/
theorem handle_payload_removes_workspace (env : Env) (storageDir : Path)
    (chat : String) (payload : DownloadMessage) (s : St) :
    (handlePayload env storageDir chat payload s).2.fs =
      s.fs.filter (fun p => ¬ (jobFolder storageDir s).isPrefixOf p) ∧
    ∀ p ∈ (handlePayload env storageDir chat payload s).2.fs,
      ¬ jobFolder storageDir s <+: p := by
  have main : (handlePayload env storageDir chat payload s).2.fs =
      s.fs.filter (fun p => ¬ (jobFolder storageDir s).isPrefixOf p) := by
    by_cases hall : ∀ f ∈ jobFiles env storageDir payload s, convOk env f = true
    · rw [handlePayload_run_ok env storageDir chat payload s hall]
      have hassoc : s.fs ++ [jobFolder storageDir s]
            ++ dlCreated env (jobFolder storageDir s) payload.urls (s.ctr + 1)
            ++ upCreated (jobFiles env storageDir payload s) =
          s.fs ++ ([jobFolder storageDir s]
            ++ dlCreated env (jobFolder storageDir s) payload.urls (s.ctr + 1)
            ++ upCreated (jobFiles env storageDir payload s)) := by
        simp [List.append_assoc]
      rw [hassoc]
      refine filter_append_under _ _ _ ?_
      intro p hp
      simp only [List.append_assoc, List.mem_append, List.mem_singleton] at hp
      rcases hp with rfl | hp | hp
      · exact List.prefix_refl _
      · exact mem_dlCreated_under env _ _ _ p hp
      · rcases mem_upCreated _ p hp with ⟨f, hf, rfl⟩
        have hfj : f ∈ jobFiles env storageDir payload s := hf
        simp only [jobFiles] at hfj
        rcases mem_jobFileLists_shape env _ payload.urls _ f hfj with ⟨d, n, rfl⟩
        exact convPath_under _ d n
    · rcases exists_first_failure (convOk env) _ hall with
        ⟨good, bad, rest, hsplit, hg, hb⟩
      rw [handlePayload_run_err env storageDir chat payload s good bad rest
        hsplit hg hb]
      have hassoc : s.fs ++ [jobFolder storageDir s]
            ++ dlCreated env (jobFolder storageDir s) payload.urls (s.ctr + 1)
            ++ upCreated good =
          s.fs ++ ([jobFolder storageDir s]
            ++ dlCreated env (jobFolder storageDir s) payload.urls (s.ctr + 1)
            ++ upCreated good) := by
        simp [List.append_assoc]
      rw [hassoc]
      refine filter_append_under _ _ _ ?_
      intro p hp
      simp only [List.append_assoc, List.mem_append, List.mem_singleton] at hp
      rcases hp with rfl | hp | hp
      · exact List.prefix_refl _
      · exact mem_dlCreated_under env _ _ _ p hp
      · rcases mem_upCreated _ p hp with ⟨f, hf, rfl⟩
        have hfj : f ∈ jobFiles env storageDir payload s := by
          rw [hsplit]
          exact List.mem_append_left _ hf
        simp only [jobFiles] at hfj
        rcases mem_jobFileLists_shape env _ payload.urls _ f hfj with ⟨d, n, rfl⟩
        exact convPath_under _ d n
  refine ⟨main, ?_⟩
  intro p hp
  rw [main] at hp
  have hpred := (List.mem_filter.mp hp).2
  simpa [ List.isPrefixOf_iff_prefix] using hpred

theorem jobFileLists_all_fail (env : Env) (folder : Path) (urls : List String)
    (h : ∀ u ∈ urls, (env.fetch u).1 ≠ 0) :
    ∀ ctr, (jobFileLists env folder urls ctr).flatten = [] := by
  induction urls with
  | nil => intro ctr; simp [jobFileLists]
  | cons u rest ih =>
    intro ctr
    have hu := h u (by simp)
    have hrest : ∀ x ∈ rest, (env.fetch x).1 ≠ 0 := fun x hx => h x (by simp [hx])
    simp [jobFileLists, urlFiles, hu, ih hrest]

/-- Claim C2: when every URL's fetch signals a failure (each contributes zero
files), the handler still reaches the reply step — the grouped reply goes to
the job's `chat_id`, replying to the job's `message_id`, with an empty media
list — and returns `Ack`. -/
theorem handle_payload_all_fetches_fail_acks (env : Env) (storageDir : Path)
    (chat : String) (payload : DownloadMessage) (s : St)
    (h : ∀ u ∈ payload.urls, (env.fetch u).1 ≠ 0) :
    (handlePayload env storageDir chat payload s).1 = Except.ok Result.Ack ∧
    (handlePayload env storageDir chat payload s).2.calls =
      s.calls ++ fetchCalls (jobFolder storageDir s) payload.urls (s.ctr + 1)
        ++ [Call.sendVideoGroup payload.chatId payload.messageId []] := by
  have hempty : jobFiles env storageDir payload s = [] := by
    simp only [jobFiles]
    exact jobFileLists_all_fail env _ payload.urls h (s.ctr + 1)
  have hall : ∀ f ∈ jobFiles env storageDir payload s, convOk env f = true := by
    simp [hempty]
  rw [handlePayload_run_ok env storageDir chat payload s hall]
  simp [hempty, uploadCalls]

/-- Witness for C2: a two-URL job in which both fetches fail still yields
`Ack` and an empty-group reply addressed to the job's chat and message. -/
theorem handle_payload_all_fetches_fail_acks_witness :
    (∀ u ∈ payloadAB.urls, (envAllFail.fetch u).1 ≠ 0) ∧
    (handlePayload envAllFail ["downloads"] "1259947317" payloadAB st0).1 =
      Except.ok Result.Ack ∧
    (handlePayload envAllFail ["downloads"] "1259947317" payloadAB st0).2.calls =
      st0.calls ++ fetchCalls (jobFolder ["downloads"] st0) payloadAB.urls (st0.ctr + 1)
        ++ [Call.sendVideoGroup payloadAB.chatId payloadAB.messageId []] :=
  ⟨by decide,
   handle_payload_all_fetches_fail_acks envAllFail ["downloads"] "1259947317"
     payloadAB st0 (by decide)⟩

/-- Claim C8: on a successful run, the trace of one job is exactly the fetch
calls in input URL order, then the upload calls in the order of the collected
files (per-URL lists concatenated in input URL order), and finally one
grouped reply whose media handles are the concatenation, in input URL order,
of each URL's uploaded-file handles. -/
theorem handle_payload_preserves_url_order (env : Env) (storageDir : Path)
    (chat : String) (payload : DownloadMessage) (s : St)
    (hconv : ∀ i o, env.convertExit i o = 0) :
    (handlePayload env storageDir chat payload s).1 = Except.ok Result.Ack ∧
    (handlePayload env storageDir chat payload s).2.calls =
      s.calls ++ fetchCalls (jobFolder storageDir s) payload.urls (s.ctr + 1)
        ++ uploadCalls chat (jobFiles env storageDir payload s)
        ++ [Call.sendVideoGroup payload.chatId payload.messageId
              (((jobFileLists env (jobFolder storageDir s) payload.urls
                  (s.ctr + 1)).map (List.map (handleOf env chat))).flatten)] := by
  have hall : ∀ f ∈ jobFiles env storageDir payload s, convOk env f = true :=
    fun f _ => by simp [convOk, hconv]
  rw [handlePayload_run_ok env storageDir chat payload s hall]
  simp [jobFiles, List.map_flatten]

/-- Witness for C8 at a concrete input (one failing URL, one URL with two
files, all conversions succeeding). -/
theorem handle_payload_preserves_url_order_witness :
    (handlePayload envAB ["downloads"] "1259947317" payloadAB st0).1 =
      Except.ok Result.Ack ∧
    (handlePayload envAB ["downloads"] "1259947317" payloadAB st0).2.calls =
      st0.calls ++ fetchCalls (jobFolder ["downloads"] st0) payloadAB.urls (st0.ctr + 1)
        ++ uploadCalls "1259947317" (jobFiles envAB ["downloads"] payloadAB st0)
        ++ [Call.sendVideoGroup payloadAB.chatId payloadAB.messageId
              (((jobFileLists envAB (jobFolder ["downloads"] st0) payloadAB.urls
                  (st0.ctr + 1)).map
                  (List.map (handleOf envAB "1259947317"))).flatten)] :=
  handle_payload_preserves_url_order envAB ["downloads"] "1259947317" payloadAB
    st0 (fun _ _ => rfl)

/-- Claim C3: for a job `[A, B]` where fetching A signals an error outcome and
fetching B succeeds, A contributes zero files and B's processing is not
aborted: the trace holds both fetches, then upload calls for exactly B's
files in B's file order, then a grouped reply carrying exactly B's handles;
the handler returns `Ack`. -/
theorem handle_payload_failed_fetch_skipped (env : Env) (storageDir : Path)
    (chat : String) (A B : String) (cid mid : Int) (s : St)
    (hA : (env.fetch A).1 ≠ 0) (hB : (env.fetch B).1 = 0)
    (hconv : ∀ i o, env.convertExit i o = 0) :
    (handlePayload env storageDir chat ⟨cid, mid, [A, B]⟩ s).1 =
      Except.ok Result.Ack ∧
    (handlePayload env storageDir chat ⟨cid, mid, [A, B]⟩ s).2.calls =
      s.calls
        ++ [Call.fetch A (cureDirAt (jobFolder storageDir s) (s.ctr + 1)),
            Call.fetch B (cureDirAt (jobFolder storageDir s) (s.ctr + 2))]
        ++ uploadCalls chat ((env.fetch B).2.map
              (fun n => cureDirAt (jobFolder storageDir s) (s.ctr + 2) ++ [n]))
        ++ [Call.sendVideoGroup cid mid
              (((env.fetch B).2.map
                  (fun n => cureDirAt (jobFolder storageDir s) (s.ctr + 2) ++ [n])).map
                (handleOf env chat))] := by
  have hall : ∀ f ∈ jobFiles env storageDir ⟨cid, mid, [A, B]⟩ s,
      convOk env f = true := fun f _ => by simp [convOk, hconv]
  rw [handlePayload_run_ok env storageDir chat ⟨cid, mid, [A, B]⟩ s hall]
  simp [jobFiles, jobFileLists, urlFiles, fetchCalls, hA, hB, Nat.add_assoc]

/-- Witness for C3 at a concrete input: fetch "A" fails, fetch "B" yields
`out1.webm` and `out2.mp4`. -/
theorem handle_payload_failed_fetch_skipped_witness :
    (handlePayload envAB ["downloads"] "staging" ⟨55, 7, ["A", "B"]⟩ st0).1 =
      Except.ok Result.Ack ∧
    (handlePayload envAB ["downloads"] "staging" ⟨55, 7, ["A", "B"]⟩ st0).2.calls =
      st0.calls
        ++ [Call.fetch "A" (cureDirAt (jobFolder ["downloads"] st0) (st0.ctr + 1)),
            Call.fetch "B" (cureDirAt (jobFolder ["downloads"] st0) (st0.ctr + 2))]
        ++ uploadCalls "staging" ((envAB.fetch "B").2.map
              (fun n => cureDirAt (jobFolder ["downloads"] st0) (st0.ctr + 2) ++ [n]))
        ++ [Call.sendVideoGroup 55 7
              (((envAB.fetch "B").2.map
                  (fun n => cureDirAt (jobFolder ["downloads"] st0) (st0.ctr + 2) ++ [n])).map
                (handleOf envAB "staging"))] :=
  handle_payload_failed_fetch_skipped envAB ["downloads"] "staging" "A" "B" 55 7
    st0 (by decide) (by decide) (fun _ _ => rfl)

/-- Claim C4: if any file of the job fails conversion (the conversion
collaborator exits non-zero), the handler raises: the result propagates as a
`RuntimeError`, files before the failing one are the only uploads, the
failing conversion is the final collaborator call — no later file is
uploaded and no grouped reply is sent. -/
theorem handle_payload_conversion_failure_aborts (env : Env) (storageDir : Path)
    (chat : String) (payload : DownloadMessage) (s : St) (good : List Path)
    (bad : Path) (rest : List Path)
    (hsplit : jobFiles env storageDir payload s = good ++ bad :: rest)
    (hgood : ∀ f ∈ good, convOk env f = true)
    (hbad : convOk env bad = false) :
    (handlePayload env storageDir chat payload s).1 =
      Except.error (PyError.runtimeError "Could not convert file!") ∧
    (handlePayload env storageDir chat payload s).2.calls =
      s.calls ++ fetchCalls (jobFolder storageDir s) payload.urls (s.ctr + 1)
        ++ uploadCalls chat good ++ [Call.convert bad (convPath bad)] := by
  rw [handlePayload_run_err env storageDir chat payload s good bad rest hsplit
    hgood hbad]
  simp

/-- Witness for C4 at a concrete input: a single URL yields `clip.webm`,
whose conversion fails. -/
theorem handle_payload_conversion_failure_aborts_witness :
    (handlePayload envConvFail ["downloads"] "staging" payloadOne st0).1 =
      Except.error (PyError.runtimeError "Could not convert file!") ∧
    (handlePayload envConvFail ["downloads"] "staging" payloadOne st0).2.calls =
      st0.calls ++ fetchCalls (jobFolder ["downloads"] st0) payloadOne.urls (st0.ctr + 1)
        ++ uploadCalls "staging" []
        ++ [Call.convert ["downloads", "tmp0", "uuid1", "clip.webm"]
              (convPath ["downloads", "tmp0", "uuid1", "clip.webm"])] :=
  handle_payload_conversion_failure_aborts envConvFail ["downloads"] "staging"
    payloadOne st0 [] ["downloads", "tmp0", "uuid1", "clip.webm"] []
    (by decide) (by decide) (by decide)

/-- Claim C6: per fetched file `dir/name`, `_upload_video` applies the
normalization policy of `_ensure_compatibility`: if the extension already is
`.mp4` the file is uploaded unchanged and the conversion collaborator is
never invoked; otherwise the conversion collaborator is invoked exactly once,
with the sibling output path `dir/base.mp4` (same directory, same base name,
target extension), and it is that converted sibling that gets uploaded. -/
theorem ensure_compatibility_policy (env : Env) (chat : String) (dir : Path)
    (name : Name) (s : St) :
    ((splitextName name).2 = ".mp4" →
      uploadVideo env chat (dir ++ [name]) s =
        (Except.ok (env.uploadFileId chat (dir ++ [name])),
         { s with calls := s.calls ++ [Call.uploadVideo chat (dir ++ [name])] })) ∧
    ((splitextName name).2 ≠ ".mp4" →
      env.convertExit (dir ++ [name]) (dir ++ [(splitextName name).1 ++ ".mp4"]) = 0 →
      uploadVideo env chat (dir ++ [name]) s =
        (Except.ok (env.uploadFileId chat (dir ++ [(splitextName name).1 ++ ".mp4"])),
         { s with
             fs := s.fs ++ [dir ++ [(splitextName name).1 ++ ".mp4"]],
             calls := s.calls
               ++ [Call.convert (dir ++ [name])
                     (dir ++ [(splitextName name).1 ++ ".mp4"]),
                   Call.uploadVideo chat
                     (dir ++ [(splitextName name).1 ++ ".mp4"])] })) := by
  constructor
  · intro h
    have hok : convOk env (dir ++ [name]) = true := by
      simp [convOk, needsConv_append_single, h]
    rw [uploadVideo_run_ok env chat _ s hok]
    simp [fileCalls, compatPath, handleOf, needsConv_append_single, h]
  · intro h hexit
    have hok : convOk env (dir ++ [name]) = true := by
      simp [convOk, needsConv_append_single, h, convPath_append_single, hexit]
    rw [uploadVideo_run_ok env chat _ s hok]
    simp [fileCalls, compatPath, handleOf, needsConv_append_single,
      convPath_append_single, h]

/-- Witness for C6: `d/a.mp4` is uploaded unchanged with no conversion call;
`d/a.webm` triggers exactly one conversion to the sibling `d/a.mp4` and that
sibling is uploaded. -/
theorem ensure_compatibility_policy_witness :
    uploadVideo envAB "staging" (["d"] ++ ["a.mp4"]) st0 =
      (Except.ok (envAB.uploadFileId "staging" (["d"] ++ ["a.mp4"])),
       { st0 with calls := st0.calls
           ++ [Call.uploadVideo "staging" (["d"] ++ ["a.mp4"])] }) ∧
    uploadVideo envAB "staging" (["d"] ++ ["a.webm"]) st0 =
      (Except.ok (envAB.uploadFileId "staging"
          (["d"] ++ [(splitextName "a.webm").1 ++ ".mp4"])),
       { st0 with
           fs := st0.fs ++ [["d"] ++ [(splitextName "a.webm").1 ++ ".mp4"]],
           calls := st0.calls
             ++ [Call.convert (["d"] ++ ["a.webm"])
                   (["d"] ++ [(splitextName "a.webm").1 ++ ".mp4"]),
                 Call.uploadVideo "staging"
                   (["d"] ++ [(splitextName "a.webm").1 ++ ".mp4"])] }) :=
  ⟨(ensure_compatibility_policy envAB "staging" ["d"] "a.mp4" st0).1 (by decide),
   (ensure_compatibility_policy envAB "staging" ["d"] "a.webm" st0).2
     (by decide) (by decide)⟩

theorem mem_fetchCalls_shape (folder : Path) (urls : List String) :
    ∀ ctr c, c ∈ fetchCalls folder urls ctr → ∃ u d, c = Call.fetch u d := by
  induction urls with
  | nil => intro ctr c hc; simp [fetchCalls] at hc
  | cons u rest ih =>
    intro ctr c hc
    simp only [fetchCalls, List.mem_cons] at hc
    rcases hc with rfl | hc
    · exact ⟨u, _, rfl⟩
    · exact ih (ctr + 1) c hc

theorem mem_uploadCalls_shape (chat : String) (files : List Path) :
    ∀ c ∈ uploadCalls chat files,
      (∃ i o, c = Call.convert i o) ∨
      ∃ f ∈ files, c = Call.uploadVideo chat (compatPath f) := by
  intro c hc
  simp only [uploadCalls, List.mem_flatten, List.mem_map] at hc
  rcases hc with ⟨l, ⟨f, hf, rfl⟩, hcl⟩
  simp only [fileCalls, List.mem_append, List.mem_singleton] at hcl
  rcases hcl with hcl | rfl
  · by_cases hn : needsConv f
    · simp only [hn, if_true, List.mem_singleton] at hcl
      subst hcl
      exact Or.inl ⟨f, convPath f, rfl⟩
    · simp [hn] at hcl
  · exact Or.inr ⟨f, hf, rfl⟩

/-- Claim C9: normalized files are uploaded to the environment-configured
staging chat (`UPLOAD_CHAT_ID`, defaulting to `"1259947317"` when unset),
never to the job's `chat_id`; the job's `chat_id` and `message_id` appear
only in the final grouped reply, and that reply carries exactly the handles
the staging uploads returned. -/
theorem uploads_target_staging_chat (environ : String → Option String)
    (env : Env) (storageDir : Path) (payload : DownloadMessage) (s : St)
    (hunset : environ "UPLOAD_CHAT_ID" = none) :
    uploadChatEnv environ = "1259947317" ∧
    ∀ c ∈ (handlePayload env storageDir (uploadChatEnv environ) payload s).2.calls,
      c ∈ s.calls ∨
        ((∀ ch p, c = Call.uploadVideo ch p → ch = uploadChatEnv environ) ∧
         (∀ cid mid vids, c = Call.sendVideoGroup cid mid vids →
            cid = payload.chatId ∧ mid = payload.messageId ∧
            vids = (jobFiles env storageDir payload s).map
              (handleOf env (uploadChatEnv environ)))) := by
  refine ⟨by simp [uploadChatEnv, getenvD, hunset], ?_⟩
  intro c hc
  by_cases hall : ∀ f ∈ jobFiles env storageDir payload s, convOk env f = true
  · rw [handlePayload_run_ok env storageDir (uploadChatEnv environ) payload s
      hall] at hc
    simp only [List.append_assoc, List.mem_append, List.mem_singleton] at hc
    rcases hc with hc | hc | hc | rfl
    · exact Or.inl hc
    · rcases mem_fetchCalls_shape _ _ _ c hc with ⟨u, d, rfl⟩
      refine Or.inr ⟨?_, ?_⟩
      · intro a b hcp
        simp at hcp
      · intro a b c hcp
        simp at hcp
    · right
      rcases mem_uploadCalls_shape _ _ c hc with ⟨i, o, rfl⟩ | ⟨f, _, rfl⟩
      · refine ⟨?_, ?_⟩
        · intro a b hcp
          simp at hcp
        · intro a b c hcp
          simp at hcp
      · refine ⟨?_, ?_⟩
        · intro ch p hcp
          simp only [Call.uploadVideo.injEq] at hcp
          exact hcp.1.symm
        · intro cid mid vids hcp
          simp at hcp
    · right
      refine ⟨?_, ?_⟩
      · intro ch p hcp
        simp at hcp
      · intro cid mid vids hcp
        simp only [Call.sendVideoGroup.injEq] at hcp
        exact ⟨hcp.1.symm, hcp.2.1.symm, hcp.2.2.symm⟩
  · rcases exists_first_failure (convOk env) _ hall with
      ⟨good, bad, rest, hsplit, hg, hb⟩
    rw [handlePayload_run_err env storageDir (uploadChatEnv environ) payload s
      good bad rest hsplit hg hb] at hc
    simp only [List.append_assoc, List.mem_append, List.mem_singleton] at hc
    rcases hc with hc | hc | hc | rfl
    · exact Or.inl hc
    · rcases mem_fetchCalls_shape _ _ _ c hc with ⟨u, d, rfl⟩
      refine Or.inr ⟨?_, ?_⟩
      · intro a b hcp
        simp at hcp
      · intro a b c hcp
        simp at hcp
    · right
      rcases mem_uploadCalls_shape _ _ c hc with ⟨i, o, rfl⟩ | ⟨f, _, rfl⟩
      · refine ⟨?_, ?_⟩
        · intro a b hcp
          simp at hcp
        · intro a b c hcp
          simp at hcp
      · refine ⟨?_, ?_⟩
        · intro ch p hcp
          simp only [Call.uploadVideo.injEq] at hcp
          exact hcp.1.symm
        · intro cid mid vids hcp
          simp at hcp
    · refine Or.inr ⟨?_, ?_⟩
      · intro a b hcp
        simp at hcp
      · intro a b c hcp
        simp at hcp

/-- Witness for C9: with `UPLOAD_CHAT_ID` unset in the process environment,
the staging chat is the default `"1259947317"`. -/
theorem uploads_target_staging_chat_witness :
    environFull "UPLOAD_CHAT_ID" = none ∧
    uploadChatEnv environFull = "1259947317" :=
  ⟨by decide,
   (uploads_target_staging_chat environFull envAB ["downloads"] payloadAB st0
     (by decide)).1⟩

/-- Claim C10: `check()` in `cancer/mqtt.py` succeeds exactly when none of the
failure conditions holds — host, port, user or password missing/empty, the
transport value empty, or the port value non-numeric — and on success the
connection arguments used by `subscribe` are precisely the validated
environment values. -/
theorem mqtt_check_valid_iff (environ : String → Option String) :
    (mqttCheck environ = Except.ok () ↔
      (pyFalsy (environ "MQTT_HOST") = false ∧
       pyFalsy (environ "MQTT_PORT") = false ∧
       pyIntOk ((environ "MQTT_PORT").getD "") = true ∧
       pyFalsy (environ "MQTT_USER") = false ∧
       pyFalsy (environ "MQTT_PASSWORD") = false ∧
       ((environ "MQTT_TRANSPORT").getD "tcp").isEmpty = false)) ∧
    ((∃ e, mqttCheck environ = Except.error e) ↔
      (pyFalsy (environ "MQTT_HOST") = true ∨
       pyFalsy (environ "MQTT_PORT") = true ∨
       pyIntOk ((environ "MQTT_PORT").getD "") = false ∨
       pyFalsy (environ "MQTT_USER") = true ∨
       pyFalsy (environ "MQTT_PASSWORD") = true ∨
       ((environ "MQTT_TRANSPORT").getD "tcp").isEmpty = true)) ∧
    (mqttCheck environ = Except.ok () →
      ∃ h p u pw, environ "MQTT_HOST" = some h ∧ h ≠ "" ∧
        environ "MQTT_PORT" = some p ∧ pyIntOk p = true ∧
        environ "MQTT_USER" = some u ∧ u ≠ "" ∧
        environ "MQTT_PASSWORD" = some pw ∧ pw ≠ "" ∧
        (environ "MQTT_TRANSPORT").getD "tcp" ≠ "" ∧
        subscribeArgs environ =
          { hostname := some h, port := some p, username := some u,
            password := some pw,
            transport := (environ "MQTT_TRANSPORT").getD "tcp" }) := by
  have hiff : mqttCheck environ = Except.ok () ↔
      (pyFalsy (environ "MQTT_HOST") = false ∧
       pyFalsy (environ "MQTT_PORT") = false ∧
       pyIntOk ((environ "MQTT_PORT").getD "") = true ∧
       pyFalsy (environ "MQTT_USER") = false ∧
       pyFalsy (environ "MQTT_PASSWORD") = false ∧
       ((environ "MQTT_TRANSPORT").getD "tcp").isEmpty = false) := by
    simp only [mqttCheck]
    split_ifs with h1 h2 h3 h4 h5 h6 <;> simp_all
  have herr : (∃ e, mqttCheck environ = Except.error e) ↔
      ¬ mqttCheck environ = Except.ok () := by
    cases hres : mqttCheck environ with
    | ok u => cases u; simp
    | error e => simp
  refine ⟨hiff, ?_, ?_⟩
  · rw [herr, hiff]
    constructor
    · intro hne
      by_contra hall
      push_neg at hall
      rcases hall with ⟨q1, q2, q3, q4, q5, q6⟩
      exact hne ⟨by simpa using q1, by simpa using q2, by simpa using q3,
        by simpa using q4, by simpa using q5, by simpa using q6⟩
    · intro hbad hcon
      rcases hcon with ⟨c1, c2, c3, c4, c5, c6⟩
      rcases hbad with hb | hb | hb | hb | hb | hb <;> simp_all
  intro hok
  rcases hiff.mp hok with ⟨h1, h2, h3, h4, h5, h6⟩
  cases hh : environ "MQTT_HOST" with
  | none => rw [hh] at h1; simp [pyFalsy] at h1
  | some hv =>
    cases hp : environ "MQTT_PORT" with
    | none => rw [hp] at h2; simp [pyFalsy] at h2
    | some pv =>
      cases hu : environ "MQTT_USER" with
      | none => rw [hu] at h4; simp [pyFalsy] at h4
      | some uv =>
        cases hpw : environ "MQTT_PASSWORD" with
        | none => rw [hpw] at h5; simp [pyFalsy] at h5
        | some pwv =>
          refine ⟨hv, pv, uv, pwv, rfl, ?_, rfl, ?_, rfl, ?_, rfl, ?_, ?_, ?_⟩
          · intro hrfl
            rw [hh, hrfl] at h1
            exact absurd h1 (by decide)
          · rw [hp] at h3
            simpa using h3
          · intro hrfl
            rw [hu, hrfl] at h4
            exact absurd h4 (by decide)
          · intro hrfl
            rw [hpw, hrfl] at h5
            exact absurd h5 (by decide)
          · intro hrfl
            rw [hrfl] at h6
            exact absurd h6 (by decide)
          · simp [subscribeArgs, hh, hp, hu, hpw]

/-- Witness for C10: a complete concrete environment passes `check()` and
its validated values are the connection arguments. -/
theorem mqtt_check_valid_iff_witness :
    mqttCheck environFull = Except.ok () ∧
    (∃ h p u pw, environFull "MQTT_HOST" = some h ∧ h ≠ "" ∧
      environFull "MQTT_PORT" = some p ∧ pyIntOk p = true ∧
      environFull "MQTT_USER" = some u ∧ u ≠ "" ∧
      environFull "MQTT_PASSWORD" = some pw ∧ pw ≠ "" ∧
      (environFull "MQTT_TRANSPORT").getD "tcp" ≠ "" ∧
      subscribeArgs environFull =
        { hostname := some h, port := some p, username := some u,
          password := some pw,
          transport := (environFull "MQTT_TRANSPORT").getD "tcp" }) :=
  ⟨by rfl, (mqtt_check_valid_iff environFull).2.2 (by rfl)⟩

/-- Claim C7: broker selection in `run()` is a fallback chain — the Rabbit
client is constructed first; the MQTT client is constructed, without the
`ValueError` escaping, exactly when the Rabbit configuration fails validation
with a `ValueError`; when the MQTT construction then also fails, startup
fails with that error; and a non-`ValueError` fault of the Rabbit
constructor is not caught. -/
theorem run_broker_fallback :
    (∀ (c : RabbitConfig) (me : Unit → Except PyError MqttConfig),
        selectSubscriber (Except.ok c) me =
          Except.ok (SelectedSubscriber.rabbit c)) ∧
    (∀ (msg : String) (me : Unit → Except PyError MqttConfig) (c : MqttConfig),
        me () = Except.ok c →
        selectSubscriber (Except.error (PyError.valueError msg)) me =
          Except.ok (SelectedSubscriber.mqtt c)) ∧
    (∀ (msg : String) (me : Unit → Except PyError MqttConfig) (e : PyError),
        me () = Except.error e →
        selectSubscriber (Except.error (PyError.valueError msg)) me =
          Except.error e) ∧
    (∀ (re : Except PyError RabbitConfig)
        (me : Unit → Except PyError MqttConfig) (c : MqttConfig),
        selectSubscriber re me = Except.ok (SelectedSubscriber.mqtt c) →
        (∃ msg, re = Except.error (PyError.valueError msg)) ∧
          me () = Except.ok c) ∧
    (∀ (msg : String) (me : Unit → Except PyError MqttConfig),
        selectSubscriber (Except.error (PyError.runtimeError msg)) me =
          Except.error (PyError.runtimeError msg)) := by
  refine ⟨fun c me => rfl, ?_, ?_, ?_, fun msg me => rfl⟩
  · intro msg me c h
    simp [selectSubscriber, h]
  · intro msg me e h
    simp [selectSubscriber, h]
  · intro re me c h
    cases re with
    | ok rc => simp [selectSubscriber] at h
    | error e =>
      cases e with
      | valueError m =>
        refine ⟨⟨m, rfl⟩, ?_⟩
        cases hme : me () with
        | ok mc =>
          simp only [selectSubscriber, hme, Except.ok.injEq] at h
          rcases h with h
          simp only [SelectedSubscriber.mqtt.injEq] at h
          rw [h]
        | error e2 => simp [selectSubscriber, hme] at h
      | runtimeError m => simp [selectSubscriber] at h

/-- Witness for C7: with a Rabbit configuration failing validation and a
complete MQTT configuration, the MQTT subscriber is selected without an
error escaping; with both failing, startup fails with the MQTT error. -/
theorem run_broker_fallback_witness :
    selectSubscriber (Except.error (PyError.valueError "RABBIT_HOST missing"))
        (fun _ => Except.ok mqttCfg) =
      Except.ok (SelectedSubscriber.mqtt mqttCfg) ∧
    selectSubscriber (Except.error (PyError.valueError "RABBIT_HOST missing"))
        (fun _ => Except.error (PyError.valueError "MQTT_HOST missing")) =
      Except.error (PyError.valueError "MQTT_HOST missing") :=
  ⟨run_broker_fallback.2.1 "RABBIT_HOST missing" (fun _ => Except.ok mqttCfg)
     mqttCfg rfl,
   run_broker_fallback.2.2.1 "RABBIT_HOST missing"
     (fun _ => Except.error (PyError.valueError "MQTT_HOST missing"))
     (PyError.valueError "MQTT_HOST missing") rfl⟩

/-- Claim C1 (the claim fails on this code): the `on_message` callback that
`subscribe` in `cancer/mqtt.py` registers applies no acknowledgement outcome
whatsoever — a deserialization failure and a handler fault both propagate
out of the callback as the raised error, instead of being turned into a
`Nack` that would keep the receive loop alive. -/
theorem mqtt_on_message_fault_propagates :
    onMessage (fun _ => Except.error (PyError.valueError "malformed payload"))
        (fun _ => Except.ok ()) [0] =
      Except.error (PyError.valueError "malformed payload") ∧
    onMessage (fun _ => Except.ok { chatId := 1, messageId := 2, urls := [] })
        (fun _ => Except.error (PyError.runtimeError "handler fault")) [0] =
      Except.error (PyError.runtimeError "handler fault") :=
  ⟨rfl, rfl⟩

end Cancer
